import Mathlib

/-!
Formal model of the Client Risk Dashboard risk-scoring engine and of the
status-update workflow handler, translated from `src/utils/riskScoring.ts`,
`src/types/customer.ts` and the `WorkflowManagement` component of the
repository.

JavaScript numbers are modelled by `JsNum`: exact rationals together with the
IEEE special values `Infinity`, `-Infinity` and `NaN`.  The precision of IEEE
doubles is idealized to exact rational arithmetic, but the special values are
modelled faithfully because `calculateRiskScore` contains unguarded divisions
(`outstandingLoans / loanPeriodMonths / monthlyIncome`) that can produce
`Infinity` or `NaN` at runtime.  Divisions whose divisor is a provably nonzero
constant (the credit-score range `850 - 300` and the guarded
`repaymentHistoryLength`) are written directly in `ℚ`, where JavaScript and
rational semantics agree.  A function that `throw`s is modelled as returning
`Except String`.
-/

namespace ClientRisk

/-- JavaScript number values: exact rationals plus `Infinity`, `-Infinity`
and `NaN` (signed zero is not distinguished; every input of the scoring code
is produced from JSON data and arithmetic on it). -/
inductive JsNum where
  | nan : JsNum
  | posInf : JsNum
  | negInf : JsNum
  | num : ℚ → JsNum
deriving DecidableEq

/-- JavaScript addition on `JsNum`. -/
def JsNum.add : JsNum → JsNum → JsNum
  | nan, _ => nan
  | _, nan => nan
  | posInf, negInf => nan
  | negInf, posInf => nan
  | posInf, _ => posInf
  | _, posInf => posInf
  | negInf, _ => negInf
  | _, negInf => negInf
  | num a, num b => num (a + b)

/-- JavaScript multiplication on `JsNum` (`Infinity * 0 = NaN`). -/
def JsNum.mul : JsNum → JsNum → JsNum
  | nan, _ => nan
  | _, nan => nan
  | posInf, posInf => posInf
  | posInf, negInf => negInf
  | negInf, posInf => negInf
  | negInf, negInf => posInf
  | posInf, num b => if 0 < b then posInf else if b < 0 then negInf else nan
  | num a, posInf => if 0 < a then posInf else if a < 0 then negInf else nan
  | negInf, num b => if 0 < b then negInf else if b < 0 then posInf else nan
  | num a, negInf => if 0 < a then negInf else if a < 0 then posInf else nan
  | num a, num b => num (a * b)

/-- JavaScript division on `JsNum`: a positive number divided by zero is
`Infinity`, `0 / 0` is `NaN`, a finite number divided by an infinity is `0`. -/
def JsNum.div : JsNum → JsNum → JsNum
  | nan, _ => nan
  | _, nan => nan
  | posInf, posInf => nan
  | posInf, negInf => nan
  | negInf, posInf => nan
  | negInf, negInf => nan
  | posInf, num b => if 0 ≤ b then posInf else negInf
  | negInf, num b => if 0 ≤ b then negInf else posInf
  | num _, posInf => num 0
  | num _, negInf => num 0
  | num a, num b =>
      if b = 0 then (if 0 < a then posInf else if a < 0 then negInf else nan)
      else num (a / b)

/-- JavaScript `Math.min` on two arguments: `NaN` if either argument is
`NaN`, otherwise the smaller value. -/
def JsNum.min : JsNum → JsNum → JsNum
  | nan, _ => nan
  | _, nan => nan
  | negInf, _ => negInf
  | _, negInf => negInf
  | posInf, b => b
  | a, posInf => a
  | num a, num b => num (Min.min a b)

/-- JavaScript `<` comparison: any comparison involving `NaN` is `false`. -/
def JsNum.lt : JsNum → JsNum → Bool
  | nan, _ => false
  | _, nan => false
  | num a, num b => decide (a < b)
  | negInf, negInf => false
  | negInf, _ => true
  | _, negInf => false
  | posInf, _ => false
  | num _, posInf => true

/-- JavaScript `Math.round` on a finite value: round half towards positive
infinity, that is `⌊q + 1/2⌋`. -/
def jsRound (q : ℚ) : ℤ := ⌊q + 1/2⌋

/-- JavaScript `Math.round` on `JsNum`: the special values are fixed points. -/
def JsNum.round : JsNum → JsNum
  | nan => nan
  | posInf => posInf
  | negInf => negInf
  | num q => num (jsRound q)

/-- Order on `JsNum` used only to state monotonicity properties: the usual
order on finite values and infinities; nothing is below or above `NaN`. -/
def JsNum.le : JsNum → JsNum → Prop
  | num a, num b => a ≤ b
  | nan, nan => True
  | nan, _ => False
  | _, nan => False
  | negInf, _ => True
  | _, posInf => True
  | _, _ => False

/-- Workflow status of a customer (`'Review' | 'Approved' | 'Rejected'`). -/
inductive CustomerStatus where
  | Review : CustomerStatus
  | Approved : CustomerStatus
  | Rejected : CustomerStatus
deriving DecidableEq

/-- Risk level (`'Low' | 'Medium' | 'High'`). -/
inductive RiskLevel where
  | Low : RiskLevel
  | Medium : RiskLevel
  | High : RiskLevel
deriving DecidableEq

/-- The `CustomerData` interface of `src/types/customer.ts`.  Numeric fields
are exact rationals: customer records come from JSON data, hence are finite. -/
structure CustomerData where
  customerId : String
  name : String
  monthlyIncome : ℚ
  monthlyExpenses : ℚ
  creditScore : ℚ
  outstandingLoans : ℚ
  loanRepaymentHistory : List ℚ
  accountBalance : ℚ
  status : CustomerStatus
deriving DecidableEq

/-- The `factors` record of the `RiskScore` interface.  The credit-score and
repayment-history factors are always finite (their divisors are a nonzero
constant and a guarded length), so they are stored as the rounded integers;
the loan-to-income factor can be non-finite and is stored as a `JsNum`. -/
structure RiskFactors where
  creditScoreImpact : ℤ
  repaymentHistoryImpact : ℤ
  loanToIncomeRatioImpact : JsNum
deriving DecidableEq

/-- The `RiskScore` interface of `src/types/customer.ts`. -/
structure RiskScore where
  customerId : String
  score : JsNum
  level : RiskLevel
  factors : RiskFactors
deriving DecidableEq

/-- Risk scoring configuration constant `CREDIT_SCORE_WEIGHT = 40`. -/
def CREDIT_SCORE_WEIGHT : ℚ := 40

/-- Risk scoring configuration constant `REPAYMENT_HISTORY_WEIGHT = 30`. -/
def REPAYMENT_HISTORY_WEIGHT : ℚ := 30

/-- Risk scoring configuration constant `LOAN_RATIO_WEIGHT = 30`. -/
def LOAN_RATIO_WEIGHT : ℚ := 30

/-- Risk scoring configuration constant `DEFAULT_LOAN_PERIOD_MONTHS = 24`
(the TypeScript function has it as the default of its second parameter; here
the parameter is always passed explicitly). -/
def DEFAULT_LOAN_PERIOD_MONTHS : ℚ := 24

/-- Threshold `RISK_THRESHOLDS.LOW = 30`. -/
def RISK_THRESHOLDS_LOW : ℚ := 30

/-- Threshold `RISK_THRESHOLDS.MEDIUM = 60`. -/
def RISK_THRESHOLDS_MEDIUM : ℚ := 60

/-- Local constant `minCreditScore = 300` of `calculateRiskScore`. -/
def minCreditScore : ℚ := 300

/-- Local constant `maxCreditScore = 850` of `calculateRiskScore`. -/
def maxCreditScore : ℚ := 850

/-- Local constant `normalizedCreditScore` of `calculateRiskScore`:
`Math.max(0, Math.min(1, (850 - creditScore) / (850 - 300)))`.  The divisor
is the nonzero constant `550`, so `ℚ` division agrees with JavaScript. -/
def normalizedCreditScore (customer : CustomerData) : ℚ :=
  max 0 (min 1 ((maxCreditScore - customer.creditScore) / (maxCreditScore - minCreditScore)))

/-- Local constant `creditScoreImpact` of `calculateRiskScore` (before the
final rounding). -/
def creditScoreImpact (customer : CustomerData) : ℚ :=
  normalizedCreditScore customer * CREDIT_SCORE_WEIGHT

/-- Local constant `repaymentHistoryImpact` of `calculateRiskScore` (before
the final rounding): the neutral value `30 / 2` for an empty history,
otherwise the fraction of missed payments (`0` entries) scaled by `30`.  The
division only happens when the length is nonzero, so `ℚ` division agrees with
JavaScript. -/
def repaymentHistoryImpact (customer : CustomerData) : ℚ :=
  if customer.loanRepaymentHistory.length = 0 then
    REPAYMENT_HISTORY_WEIGHT / 2
  else
    (((customer.loanRepaymentHistory.filter (fun payment => payment == 0)).length : ℚ)
      / (customer.loanRepaymentHistory.length : ℚ)) * REPAYMENT_HISTORY_WEIGHT

/-- Local constant `monthlyLoanBurden = outstandingLoans / loanPeriodMonths`
of `calculateRiskScore`; `loanPeriodMonths` is not validated, so this division
uses the JavaScript semantics. -/
def monthlyLoanBurden (customer : CustomerData) (loanPeriodMonths : ℚ) : JsNum :=
  JsNum.div (.num customer.outstandingLoans) (.num loanPeriodMonths)

/-- Local constant `loanToIncomeRatio = monthlyLoanBurden / monthlyIncome` of
`calculateRiskScore`; `monthlyIncome` may be zero, so this division uses the
JavaScript semantics. -/
def loanToIncomeRatio (customer : CustomerData) (loanPeriodMonths : ℚ) : JsNum :=
  JsNum.div (monthlyLoanBurden customer loanPeriodMonths) (.num customer.monthlyIncome)

/-- Local constant `normalizedRatio = Math.min(1, loanToIncomeRatio / 0.5)`
of `calculateRiskScore`. -/
def normalizedRatio (customer : CustomerData) (loanPeriodMonths : ℚ) : JsNum :=
  JsNum.min (.num 1) (JsNum.div ( loanToIncomeRatio customer loanPeriodMonths) (.num (1/2)))

/-- Local constant `loanToIncomeRatioImpact = normalizedRatio * 30` of
`calculateRiskScore` (before the final rounding). -/
def loanToIncomeRatioImpact (customer : CustomerData) (loanPeriodMonths : ℚ) : JsNum :=
  JsNum.mul ( normalizedRatio customer loanPeriodMonths) (.num LOAN_RATIO_WEIGHT)

/-- Local constant
`totalScore = creditScoreImpact + repaymentHistoryImpact + loanToIncomeRatioImpact`
of `calculateRiskScore` (JavaScript `+` associates to the left). -/
def totalScore (customer : CustomerData) (loanPeriodMonths : ℚ) : JsNum :=
  JsNum.add
    (JsNum.add (.num (creditScoreImpact customer)) (.num (repaymentHistoryImpact customer)))
    (loanToIncomeRatioImpact customer loanPeriodMonths)

/-- Local variable `riskLevel` of `calculateRiskScore`: classified from the
unrounded `totalScore` (a comparison with `NaN` is `false`, so a `NaN` total
falls through to `'High'`). -/
def riskLevel (customer : CustomerData) (loanPeriodMonths : ℚ) : RiskLevel :=
  if JsNum.lt (totalScore customer loanPeriodMonths) (.num RISK_THRESHOLDS_LOW) then
    RiskLevel.Low
  else if JsNum.lt (totalScore customer loanPeriodMonths) (.num RISK_THRESHOLDS_MEDIUM) then
    RiskLevel.Medium
  else
    RiskLevel.High

/-- The exported `calculateRiskScore` of `src/utils/riskScoring.ts`.  The
three `throw new Error(...)` statements of the input validation become
`Except.error`; note that `loanPeriodMonths` and `monthlyIncome = 0` are not
validated, exactly as in the source. -/
def calculateRiskScore (customer : CustomerData) (loanPeriodMonths : ℚ) :
    Except String RiskScore :=
  if customer.creditScore < 300 ∨ customer.creditScore > 850 then
    .error "Credit score must be between 300 and 850"
  else if customer.monthlyIncome < 0 then
    .error "Monthly income cannot be negative"
  else if customer.outstandingLoans < 0 then
    .error "Outstanding loans cannot be negative"
  else
    .ok {
      customerId := customer.customerId
      score := (totalScore customer loanPeriodMonths).round
      level := riskLevel customer loanPeriodMonths
      factors := {
        creditScoreImpact := jsRound (creditScoreImpact customer)
        repaymentHistoryImpact := jsRound (repaymentHistoryImpact customer)
        loanToIncomeRatioImpact := (loanToIncomeRatioImpact customer loanPeriodMonths).round
      }
    }

/-- The exported `calculateAllRiskScores`:
`customers.map(customer => calculateRiskScore(customer))`.  The callback can
throw, and `Array.prototype.map` does not catch: the first exception aborts
the whole traversal, which is exactly the left-to-right `Except` propagation
written out below. -/
def calculateAllRiskScores : List CustomerData → Except String (List RiskScore)
  | [] => .ok []
  | customer :: rest =>
    match calculateRiskScore customer DEFAULT_LOAN_PERIOD_MONTHS with
    | .error e => .error e
    | .ok r =>
      match calculateAllRiskScores rest with
      | .error e => .error e
      | .ok rs => .ok (r :: rs)

/-- Observable notification events emitted by the `WorkflowManagement`
status-update handler: the `notification.warning` high-risk alert, the
`notification.success` confirmation, and the `notification.error` failure
message. -/
inductive AlertEvent where
  | highRiskAlert : String → JsNum → AlertEvent
  | successNotification : String → AlertEvent
  | errorNotification : AlertEvent
deriving DecidableEq

/-- The `handleUpdateStatus` callback of the `WorkflowManagement` component,
as the sequence of notifications it emits.  `riskScores` is the component's
memoized `calculateAllRiskScores` result, `currentCustomer` its selected
customer state, `updateResult` the outcome of the awaited
`updateCustomerStatus` call (`.error` for a rejected promise).  The high-risk
alert is emitted only when the update already succeeded, the requested status
is `'Approved'`, the customer's score is found, and `customerRisk.score > 70`. -/
def handleUpdateStatus (riskScores : List RiskScore) (currentCustomer : Option CustomerData)
    (newStatus : CustomerStatus) (updateResult : Except Unit Bool) : List AlertEvent :=
  match currentCustomer with
  | none => []
  | some customer =>
    match updateResult with
    | .error _ => [.errorNotification]
    | .ok false => [.errorNotification]
    | .ok true =>
      let customerRisk := riskScores.find? (fun s => s.customerId == customer.customerId)
      let alerts : List AlertEvent :=
        match customerRisk with
        | some risk =>
          if JsNum.lt (.num 70) risk.score && (newStatus == CustomerStatus.Approved) then
            [.highRiskAlert customer.customerId risk.score]
          else []
        | none => []
      alerts ++ [.successNotification customer.customerId]

/-- Number of high-risk alerts in a list of emitted events. -/
def alertCount (events : List AlertEvent) : ℕ :=
  (events.filter (fun e =>
    match e with
    | .highRiskAlert _ _ => true
    | _ => false)).length

/-- Value taken by `loanToIncomeRatioImpact` in the generic case, i.e. when
neither `loanPeriodMonths` nor `monthlyIncome` is zero; the lemma
`loanToIncomeRatioImpact_eq` proves the agreement with the `JsNum`
computation. -/
def loanImpactQ (customer : CustomerData) (loanPeriodMonths : ℚ) : ℚ :=
  Min.min 1 (customer.outstandingLoans / loanPeriodMonths / customer.monthlyIncome / (1/2))
    * LOAN_RATIO_WEIGHT

/-- Value taken by the unrounded `totalScore` in the generic case. -/
def totalQ (customer : CustomerData) (loanPeriodMonths : ℚ) : ℚ :=
  creditScoreImpact customer + repaymentHistoryImpact customer
    + loanImpactQ customer loanPeriodMonths

/-- Concrete profile: credit score 300, income 3000, loans 12000, empty
history.  Its unrounded total is `40 + 15 + 10 = 65`, so its level is `High`
but its score does not exceed the handler's alert threshold of 70. -/
def custC1 : CustomerData :=
  { customerId := "C1", name := "High Sixty Five", monthlyIncome := 3000,
    monthlyExpenses := 0, creditScore := 300, outstandingLoans := 12000,
    loanRepaymentHistory := [], accountBalance := 0, status := .Review }

/-- The risk score computed for `custC1`. -/
def riskC1 : RiskScore :=
  { customerId := "C1", score := .num 65, level := .High,
    factors := { creditScoreImpact := 40, repaymentHistoryImpact := 15,
                 loanToIncomeRatioImpact := .num 10 } }

/-- Concrete profile whose score is 85, above the handler's threshold. -/
def custC1w : CustomerData :=
  { customerId := "C1W", name := "High Eighty Five", monthlyIncome := 1000,
    monthlyExpenses := 0, creditScore := 300, outstandingLoans := 12000,
    loanRepaymentHistory := [], accountBalance := 0, status := .Review }

/-- The risk score computed for `custC1w`. -/
def riskC1w : RiskScore :=
  { customerId := "C1W", score := .num 85, level := .High,
    factors := { creditScoreImpact := 40, repaymentHistoryImpact := 15,
                 loanToIncomeRatioImpact := .num 30 } }

/-- Concrete profile with `monthlyIncome = 0` (and `outstandingLoans = 0`),
the division-by-zero edge case. -/
def custC2 : CustomerData :=
  { customerId := "C2", name := "Zero Income", monthlyIncome := 0,
    monthlyExpenses := 0, creditScore := 500, outstandingLoans := 0,
    loanRepaymentHistory := [], accountBalance := 0, status := .Review }

/-- Concrete profile whose unrounded total is `0 + 15 + 14.7 = 29.7`: the
returned score rounds to 30 while the level is classified `Low`. -/
def custC3 : CustomerData :=
  { customerId := "C3", name := "Boundary Thirty", monthlyIncome := 1000,
    monthlyExpenses := 0, creditScore := 850, outstandingLoans := 5880,
    loanRepaymentHistory := [], accountBalance := 0, status := .Review }

/-- The risk score computed for `custC3`: score 30, level `Low`. -/
def riskC3 : RiskScore :=
  { customerId := "C3", score := .num 30, level := .Low,
    factors := { creditScoreImpact := 0, repaymentHistoryImpact := 15,
                 loanToIncomeRatioImpact := .num 15 } }

/-- The worked scenario of the specification: credit score 620, income 4000,
loans 24000, history `[1,1,0,1,1,1]`. -/
def custC3w : CustomerData :=
  { customerId := "C3W", name := "Spec Scenario", monthlyIncome := 4000,
    monthlyExpenses := 0, creditScore := 620, outstandingLoans := 24000,
    loanRepaymentHistory := [1, 1, 0, 1, 1, 1], accountBalance := 0, status := .Review }

/-- The risk score computed for `custC3w`: score 37, level `Medium`. -/
def riskC3w : RiskScore :=
  { customerId := "C3W", score := .num 37, level := .Medium,
    factors := { creditScoreImpact := 17, repaymentHistoryImpact := 5,
                 loanToIncomeRatioImpact := .num 15 } }

/-- Valid profile used in the batch witness. -/
def custC4a : CustomerData :=
  { customerId := "C4A", name := "Batch A", monthlyIncome := 1000,
    monthlyExpenses := 0, creditScore := 850, outstandingLoans := 0,
    loanRepaymentHistory := [], accountBalance := 0, status := .Review }

/-- The risk score computed for `custC4a`. -/
def riskC4a : RiskScore :=
  { customerId := "C4A", score := .num 15, level := .Low,
    factors := { creditScoreImpact := 0, repaymentHistoryImpact := 15,
                 loanToIncomeRatioImpact := .num 0 } }

/-- Valid profile used in the batch witness. -/
def custC4b : CustomerData :=
  { customerId := "C4B", name := "Batch B", monthlyIncome := 1000,
    monthlyExpenses := 0, creditScore := 300, outstandingLoans := 0,
    loanRepaymentHistory := [1], accountBalance := 0, status := .Review }

/-- The risk score computed for `custC4b`. -/
def riskC4b : RiskScore :=
  { customerId := "C4B", score := .num 40, level := .Medium,
    factors := { creditScoreImpact := 40, repaymentHistoryImpact := 0,
                 loanToIncomeRatioImpact := .num 0 } }

/-- Invalid profile (credit score 200) placed in the middle of a batch. -/
def custC4bad : CustomerData :=
  { customerId := "C4X", name := "Batch Bad", monthlyIncome := 1000,
    monthlyExpenses := 0, creditScore := 200, outstandingLoans := 0,
    loanRepaymentHistory := [], accountBalance := 0, status := .Review }

/-- Valid profile placed after the invalid one in the batch counterexample. -/
def custC4c : CustomerData :=
  { customerId := "C4C", name := "Batch C", monthlyIncome := 1000,
    monthlyExpenses := 0, creditScore := 400, outstandingLoans := 0,
    loanRepaymentHistory := [], accountBalance := 0, status := .Review }

/-- The risk score `calculateRiskScore` computes for `custC4c` on its own. -/
def riskC4c : RiskScore :=
  { customerId := "C4C", score := .num 48, level := .Medium,
    factors := { creditScoreImpact := 33, repaymentHistoryImpact := 15,
                 loanToIncomeRatioImpact := .num 0 } }

/-- Profile with an out-of-range credit score, for the validation witness. -/
def custC5bad : CustomerData :=
  { customerId := "C5B", name := "Bad Credit Range", monthlyIncome := 1000,
    monthlyExpenses := 0, creditScore := 200, outstandingLoans := 0,
    loanRepaymentHistory := [], accountBalance := 0, status := .Review }

/-- Otherwise-valid profile scored with `loanPeriodMonths = 0`. -/
def custC5x : CustomerData :=
  { customerId := "C5X", name := "Zero Period", monthlyIncome := 1000,
    monthlyExpenses := 0, creditScore := 850, outstandingLoans := 100,
    loanRepaymentHistory := [], accountBalance := 0, status := .Review }

/-- The risk score the code returns for `custC5x` at period 0 (no failure). -/
def riskC5x : RiskScore :=
  { customerId := "C5X", score := .num 45, level := .Medium,
    factors := { creditScoreImpact := 0, repaymentHistoryImpact := 15,
                 loanToIncomeRatioImpact := .num 30 } }

/-- Valid profile with an empty repayment history. -/
def custC6 : CustomerData :=
  { customerId := "C6", name := "No History", monthlyIncome := 1000,
    monthlyExpenses := 0, creditScore := 700, outstandingLoans := 0,
    loanRepaymentHistory := [], accountBalance := 0, status := .Review }

/-- The risk score computed for `custC6`. -/
def riskC6 : RiskScore :=
  { customerId := "C6", score := .num 26, level := .Low,
    factors := { creditScoreImpact := 11, repaymentHistoryImpact := 15,
                 loanToIncomeRatioImpact := .num 0 } }

/-- Valid profile exercising all three components. -/
def custC7 : CustomerData :=
  { customerId := "C7", name := "Bounds", monthlyIncome := 2000,
    monthlyExpenses := 0, creditScore := 500, outstandingLoans := 6000,
    loanRepaymentHistory := [1, 0], accountBalance := 0, status := .Review }

/-- The risk score computed for `custC7`. -/
def riskC7 : RiskScore :=
  { customerId := "C7", score := .num 48, level := .Medium,
    factors := { creditScoreImpact := 25, repaymentHistoryImpact := 15,
                 loanToIncomeRatioImpact := .num 8 } }

/-- Valid profile with the best possible credit score 850. -/
def custC8 : CustomerData :=
  { customerId := "C8", name := "Perfect Credit", monthlyIncome := 1000,
    monthlyExpenses := 0, creditScore := 850, outstandingLoans := 0,
    loanRepaymentHistory := [1], accountBalance := 0, status := .Review }

/-- The risk score computed for `custC8`. -/
def riskC8 : RiskScore :=
  { customerId := "C8", score := .num 0, level := .Low,
    factors := { creditScoreImpact := 0, repaymentHistoryImpact := 0,
                 loanToIncomeRatioImpact := .num 0 } }

/-- Valid profile with no outstanding loans, for the monotonicity witness. -/
def custC9a : CustomerData :=
  { customerId := "C9", name := "Mono", monthlyIncome := 1000,
    monthlyExpenses := 0, creditScore := 500, outstandingLoans := 0,
    loanRepaymentHistory := [], accountBalance := 0, status := .Review }

/-- Same profile as `custC9a` but with 6000 of outstanding loans. -/
def custC9b : CustomerData :=
  { customerId := "C9", name := "Mono", monthlyIncome := 1000,
    monthlyExpenses := 0, creditScore := 500, outstandingLoans := 6000,
    loanRepaymentHistory := [], accountBalance := 0, status := .Review }

/-- The risk score computed for `custC9a`. -/
def riskC9a : RiskScore :=
  { customerId := "C9", score := .num 40, level := .Medium,
    factors := { creditScoreImpact := 25, repaymentHistoryImpact := 15,
                 loanToIncomeRatioImpact := .num 0 } }

/-- The risk score computed for `custC9b`. -/
def riskC9b : RiskScore :=
  { customerId := "C9", score := .num 55, level := .Medium,
    factors := { creditScoreImpact := 25, repaymentHistoryImpact := 15,
                 loanToIncomeRatioImpact := .num 15 } }

/-- Profile for the noninterference witness. -/
def custC10a : CustomerData :=
  { customerId := "C10", name := "Alice", monthlyIncome := 2000,
    monthlyExpenses := 500, creditScore := 600, outstandingLoans := 4800,
    loanRepaymentHistory := [1, 1], accountBalance := 100, status := .Review }

/-- Same scoring-relevant fields as `custC10a`, but a different name,
expenses, account balance and status. -/
def custC10b : CustomerData :=
  { customerId := "C10", name := "Bob", monthlyIncome := 2000,
    monthlyExpenses := 9999, creditScore := 600, outstandingLoans := 4800,
    loanRepaymentHistory := [1, 1], accountBalance := -5, status := .Approved }

/-- Addition of two finite values is finite addition. -/
theorem JsNum.add_num_num (a b : ℚ) : JsNum.add (.num a) (.num b) = .num (a + b) := rfl

/-- Multiplication of two finite values is finite multiplication. -/
theorem JsNum.mul_num_num (a b : ℚ) : JsNum.mul (.num a) (.num b) = .num (a * b) := rfl

/-- Minimum of two finite values is the finite minimum. -/
theorem JsNum.min_num_num (a b : ℚ) : JsNum.min (.num a) (.num b) = .num (Min.min a b) := rfl

/-- Division of finite values with a nonzero divisor is finite division. -/
theorem JsNum.div_num_num (a b : ℚ) (hb : b ≠ 0) :
    JsNum.div (.num a) (.num b) = .num (a / b) := by
  simp [JsNum.div, hb]

/-- Comparison of two finite values is the finite comparison. -/
theorem JsNum.lt_num_num (a b : ℚ) : JsNum.lt (.num a) (.num b) = decide (a < b) := rfl

/-- Rounding a finite value. -/
theorem JsNum.round_num (q : ℚ) : JsNum.round (.num q) = .num (jsRound q) := rfl

/-- Rounding does not overshoot an integer upper bound. -/
theorem jsRound_le_of_le {q : ℚ} {n : ℤ} (h : q ≤ (n : ℚ)) : jsRound q ≤ n := by
  have : jsRound q < n + 1 := by
    unfold jsRound
    rw [Int.floor_lt]
    have hcast : ((n + 1 : ℤ) : ℚ) = (n : ℚ) + 1 := by exact_mod_cast rfl
    rw [hcast]
    linarith
  omega

/-- Rounding does not undershoot an integer lower bound. -/
theorem le_jsRound_of_le {q : ℚ} {n : ℤ} (h : (n : ℚ) ≤ q) : n ≤ jsRound q := by
  unfold jsRound
  rw [Int.le_floor]
  linarith

/-- Rounding is monotone. -/
theorem jsRound_mono {a b : ℚ} (h : a ≤ b) : jsRound a ≤ jsRound b := by
  unfold jsRound
  exact Int.floor_le_floor (by linarith)

/-- The rounded value sits within half a unit of the unrounded one. -/
theorem jsRound_spread (q : ℚ) :
    (jsRound q : ℚ) ≤ q + 1/2 ∧ q + 1/2 < (jsRound q : ℚ) + 1 := by
  unfold jsRound
  exact ⟨Int.floor_le _, Int.lt_floor_add_one _⟩

/-- The normalized credit score is clamped into `[0, 1]`. -/
theorem normalizedCreditScore_mem (customer : CustomerData) :
    0 ≤ normalizedCreditScore customer ∧ normalizedCreditScore customer ≤ 1 := by
  unfold normalizedCreditScore
  exact ⟨le_max_left _ _, max_le (by norm_num) (min_le_left _ _)⟩

/-- The unrounded credit-score component lies in `[0, 40]`. -/
theorem creditScoreImpact_mem (customer : CustomerData) :
    0 ≤ creditScoreImpact customer ∧ creditScoreImpact customer ≤ 40 := by
  obtain ⟨h0, h1⟩ := normalizedCreditScore_mem customer
  unfold creditScoreImpact CREDIT_SCORE_WEIGHT
  constructor
  · positivity
  · nlinarith

/-- The unrounded repayment-history component lies in `[0, 30]`. -/
theorem repaymentHistoryImpact_mem (customer : CustomerData) :
    0 ≤ repaymentHistoryImpact customer ∧ repaymentHistoryImpact customer ≤ 30 := by
  unfold repaymentHistoryImpact REPAYMENT_HISTORY_WEIGHT
  split
  · norm_num
  · rename_i hlen
    have hpos : (0 : ℚ) < (customer.loanRepaymentHistory.length : ℚ) := by
      have : 0 < customer.loanRepaymentHistory.length := Nat.pos_of_ne_zero hlen
      exact_mod_cast this
    have hfle : ((customer.loanRepaymentHistory.filter (fun payment => payment == 0)).length : ℚ)
        ≤ (customer.loanRepaymentHistory.length : ℚ) := by
      exact_mod_cast List.length_filter_le _ _
    have hfrac0 : (0 : ℚ) ≤
        ((customer.loanRepaymentHistory.filter (fun payment => payment == 0)).length : ℚ)
          / (customer.loanRepaymentHistory.length : ℚ) := by positivity
    have hfrac1 :
        ((customer.loanRepaymentHistory.filter (fun payment => payment == 0)).length : ℚ)
          / (customer.loanRepaymentHistory.length : ℚ) ≤ 1 :=
      (div_le_one hpos).mpr hfle
    constructor
    · positivity
    · nlinarith

/-- In the generic case the loan component agrees with its `ℚ` value. -/
theorem loanToIncomeRatioImpact_eq (customer : CustomerData) (loanPeriodMonths : ℚ)
    (hp : loanPeriodMonths ≠ 0) (hm : customer.monthlyIncome ≠ 0) :
    loanToIncomeRatioImpact customer loanPeriodMonths
      = .num (loanImpactQ customer loanPeriodMonths) := by
  unfold loanToIncomeRatioImpact normalizedRatio loanToIncomeRatio monthlyLoanBurden loanImpactQ
  rw [JsNum.div_num_num _ _ hp, JsNum.div_num_num _ _ hm,
    JsNum.div_num_num _ _ (by norm_num : (1/2 : ℚ) ≠ 0), JsNum.min_num_num, JsNum.mul_num_num]

/-- The unrounded loan component lies in `[0, 30]` when the inputs are valid. -/
theorem loanImpactQ_mem (customer : CustomerData) (loanPeriodMonths : ℚ)
    (hp : 0 < loanPeriodMonths) (hm : 0 < customer.monthlyIncome)
    (hl : 0 ≤ customer.outstandingLoans) :
    0 ≤ loanImpactQ customer loanPeriodMonths ∧ loanImpactQ customer loanPeriodMonths ≤ 30 := by
  unfold loanImpactQ LOAN_RATIO_WEIGHT
  have hx : (0 : ℚ) ≤ customer.outstandingLoans / loanPeriodMonths / customer.monthlyIncome / (1/2) := by
    positivity
  constructor
  · have h0 : (0 : ℚ) ≤
        Min.min 1 (customer.outstandingLoans / loanPeriodMonths / customer.monthlyIncome / (1/2)) :=
      le_min (by norm_num) hx
    positivity
  · have h1 :
        Min.min 1 (customer.outstandingLoans / loanPeriodMonths / customer.monthlyIncome / (1/2)) ≤ 1 :=
      min_le_left _ _
    nlinarith

/-- In the generic case the unrounded total agrees with its `ℚ` value. -/
theorem totalScore_eq (customer : CustomerData) (loanPeriodMonths : ℚ)
    (hp : loanPeriodMonths ≠ 0) (hm : customer.monthlyIncome ≠ 0) :
    totalScore customer loanPeriodMonths = .num (totalQ customer loanPeriodMonths) := by
  unfold totalScore totalQ
  rw [loanToIncomeRatioImpact_eq customer loanPeriodMonths hp hm,
    JsNum.add_num_num, JsNum.add_num_num]

/-- In the generic case the level is the step function of the unrounded total. -/
theorem riskLevel_eq (customer : CustomerData) (loanPeriodMonths : ℚ)
    (hp : loanPeriodMonths ≠ 0) (hm : customer.monthlyIncome ≠ 0) :
    riskLevel customer loanPeriodMonths =
      (if totalQ customer loanPeriodMonths < 30 then RiskLevel.Low
       else if totalQ customer loanPeriodMonths < 60 then RiskLevel.Medium
       else RiskLevel.High) := by
  unfold riskLevel
  rw [totalScore_eq customer loanPeriodMonths hp hm]
  simp [JsNum.lt_num_num, RISK_THRESHOLDS_LOW, RISK_THRESHOLDS_MEDIUM]

/-- Shape of a successfully returned risk score. -/
theorem riskScore_of_ok (customer : CustomerData) (loanPeriodMonths : ℚ) (r : RiskScore)
    (hok : calculateRiskScore customer loanPeriodMonths = .ok r) :
    r = { customerId := customer.customerId
          score := (totalScore customer loanPeriodMonths).round
          level := riskLevel customer loanPeriodMonths
          factors := { creditScoreImpact := jsRound (creditScoreImpact customer)
                       repaymentHistoryImpact := jsRound (repaymentHistoryImpact customer)
                       loanToIncomeRatioImpact :=
                         (loanToIncomeRatioImpact customer loanPeriodMonths).round } } := by
  unfold calculateRiskScore at hok
  split at hok
  · exact absurd hok (by simp)
  · split at hok
    · exact absurd hok (by simp)
    · split at hok
      · exact absurd hok (by simp)
      · simp only [Except.ok.injEq] at hok
        exact hok.symm

/-- C2: the claim says scoring a profile with `monthlyIncome = 0` fails with
a division-by-zero/validation error and never returns a `RiskScore`
containing `NaN` or `Infinity`.  The code has no such guard: on the concrete
profile `custC2` (income 0, loans 0) `calculateRiskScore` succeeds and
returns a `RiskScore` whose `score` and `loanToIncomeRatioImpact` are `NaN`
(and whose level falls through to `High` because every comparison with `NaN`
is false). -/
theorem C2_zero_income_returns_nan :
    calculateRiskScore custC2 24 =
      .ok { customerId := "C2", score := .nan, level := .High,
            factors := { creditScoreImpact := 25, repaymentHistoryImpact := 15,
                         loanToIncomeRatioImpact := .nan } } := by
  with_unfolding_all rfl

/-- C6: for every profile accepted by the validation whose
`loanRepaymentHistory` is empty, the repayment-history component before
rounding is exactly `15` (half of the weight 30), and the returned rounded
factor is `15` as well. -/
theorem C6_empty_history_neutral (customer : CustomerData) (loanPeriodMonths : ℚ)
    (r : RiskScore) (hemp : customer.loanRepaymentHistory = [])
    (hok : calculateRiskScore customer loanPeriodMonths = .ok r) :
    repaymentHistoryImpact customer = 15 ∧ r.factors.repaymentHistoryImpact = 15 := by
  have himp : repaymentHistoryImpact customer = 15 := by
    unfold repaymentHistoryImpact
    rw [hemp]
    norm_num [REPAYMENT_HISTORY_WEIGHT]
  refine ⟨himp, ?_⟩
  rw [riskScore_of_ok customer loanPeriodMonths r hok]
  show jsRound (repaymentHistoryImpact customer) = 15
  rw [himp]
  with_unfolding_all rfl

/-- C6 witness: the concrete empty-history profile `custC6`. -/
theorem C6_empty_history_neutral_witness :
    repaymentHistoryImpact custC6 = 15 ∧ riskC6.factors.repaymentHistoryImpact = 15 :=
  C6_empty_history_neutral custC6 24 riskC6 rfl (by with_unfolding_all rfl)

/-- C8: for every profile accepted by the validation, the returned
credit-score factor is the rounding of
`clamp((850 - creditScore) / 550, 0, 1) * 40`; in particular a credit score
of 850 contributes exactly 0 and a credit score of 300 contributes exactly
40, both before and after rounding. -/
theorem C8_credit_linear_inversion (customer : CustomerData) (loanPeriodMonths : ℚ)
    (r : RiskScore) (hok : calculateRiskScore customer loanPeriodMonths = .ok r) :
    r.factors.creditScoreImpact
      = jsRound (max 0 (min 1 ((850 - customer.creditScore) / 550)) * 40) ∧
    (customer.creditScore = 850 →
      creditScoreImpact customer = 0 ∧ r.factors.creditScoreImpact = 0) ∧
    (customer.creditScore = 300 →
      creditScoreImpact customer = 40 ∧ r.factors.creditScoreImpact = 40) := by
  have hform : creditScoreImpact customer
      = max 0 (min 1 ((850 - customer.creditScore) / 550)) * 40 := by
    unfold creditScoreImpact normalizedCreditScore maxCreditScore minCreditScore CREDIT_SCORE_WEIGHT
    norm_num
  have hfac : r.factors.creditScoreImpact = jsRound (creditScoreImpact customer) := by
    rw [riskScore_of_ok customer loanPeriodMonths r hok]
  refine ⟨by rw [hfac, hform], ?_, ?_⟩
  · intro h850
    have h0 : creditScoreImpact customer = 0 := by
      rw [hform, h850]
      norm_num [min_def, max_def]
    exact ⟨h0, by rw [hfac, h0]; with_unfolding_all rfl⟩
  · intro h300
    have h40 : creditScoreImpact customer = 40 := by
      rw [hform, h300]
      norm_num [min_def, max_def]
    exact ⟨h40, by rw [hfac, h40]; with_unfolding_all rfl⟩

/-- C8 witness: the concrete profile `custC8` with credit score 850. -/
theorem C8_credit_linear_inversion_witness :
    creditScoreImpact custC8 = 0 ∧ riskC8.factors.creditScoreImpact = 0 :=
  (C8_credit_linear_inversion custC8 24 riskC8 (by with_unfolding_all rfl)).2.1 rfl

/-- C10: noninterference of the scoring interface: two customers that agree
on `customerId`, `monthlyIncome`, `outstandingLoans`, `creditScore` and
`loanRepaymentHistory` (scored over the same loan period) receive identical
results — `name`, `monthlyExpenses`, `accountBalance` and `status` have no
influence on the returned `RiskScore` (the embedding is a pure function, as
is the source, which never assigns to its argument). -/
theorem C10_noninterference (c1 c2 : CustomerData) (loanPeriodMonths : ℚ)
    (hid : c2.customerId = c1.customerId)
    (hm : c2.monthlyIncome = c1.monthlyIncome)
    (hl : c2.outstandingLoans = c1.outstandingLoans)
    (hcs : c2.creditScore = c1.creditScore)
    (hh : c2.loanRepaymentHistory = c1.loanRepaymentHistory) :
    calculateRiskScore c2 loanPeriodMonths = calculateRiskScore c1 loanPeriodMonths := by
  unfold calculateRiskScore riskLevel totalScore loanToIncomeRatioImpact normalizedRatio
    loanToIncomeRatio monthlyLoanBurden repaymentHistoryImpact creditScoreImpact
    normalizedCreditScore
  rw [hid, hm, hl, hcs, hh]

/-- C10 witness: `custC10a` and `custC10b` differ in name, expenses, balance
and status but receive identical risk scores. -/
theorem C10_noninterference_witness :
    calculateRiskScore custC10b 24 = calculateRiskScore custC10a 24 :=
  C10_noninterference custC10a custC10b 24 rfl rfl rfl rfl rfl

/-- C5 (amended): the validation checks exactly three preconditions, in
order — credit score in `[300, 850]`, non-negative income, non-negative
loans — each failing with an error message identifying the offending field,
and when all three pass a score is returned; `loanPeriodMonths` is not
validated (the last conjunct holds for every period, including zero and
negative ones). -/
theorem C5_validation_fields (customer : CustomerData) (loanPeriodMonths : ℚ) :
    ((customer.creditScore < 300 ∨ customer.creditScore > 850) →
      calculateRiskScore customer loanPeriodMonths
        = .error "Credit score must be between 300 and 850") ∧
    (¬(customer.creditScore < 300 ∨ customer.creditScore > 850) →
      customer.monthlyIncome < 0 →
      calculateRiskScore customer loanPeriodMonths
        = .error "Monthly income cannot be negative") ∧
    (¬(customer.creditScore < 300 ∨ customer.creditScore > 850) →
      ¬(customer.monthlyIncome < 0) → customer.outstandingLoans < 0 →
      calculateRiskScore customer loanPeriodMonths
        = .error "Outstanding loans cannot be negative") ∧
    (¬(customer.creditScore < 300 ∨ customer.creditScore > 850) →
      ¬(customer.monthlyIncome < 0) → ¬(customer.outstandingLoans < 0) →
      ∃ r, calculateRiskScore customer loanPeriodMonths = .ok r) := by
  unfold calculateRiskScore
  refine ⟨?_, ?_, ?_, ?_⟩
  · intro h
    rw [if_pos h]
  · intro h1 h2
    rw [if_neg h1, if_pos h2]
  · intro h1 h2 h3
    rw [if_neg h1, if_neg h2, if_pos h3]
  · intro h1 h2 h3
    rw [if_neg h1, if_neg h2, if_neg h3]
    exact ⟨_, rfl⟩

/-- C5 witness: an out-of-range credit score is rejected with the
field-identifying message. -/
theorem C5_validation_fields_witness :
    calculateRiskScore custC5bad 24 = .error "Credit score must be between 300 and 850" :=
  (C5_validation_fields custC5bad 24).1 (Or.inl (by with_unfolding_all decide))

/-- C5 counterexample: the claim also demands failure whenever
`loanPeriodMonths ≤ 0`, but the code performs no such check: scoring the
otherwise-valid `custC5x` with period `0` succeeds (the division by zero
produces `Infinity`, which the `Math.min(1, …)` clamp silently turns into a
full loan-ratio impact of 30). -/
theorem C5_period_not_validated :
    calculateRiskScore custC5x 0 = .ok riskC5x := by
  with_unfolding_all rfl

/-- C7: for every profile passing validation with positive income and a
positive loan period (the specification's notion of a valid profile), the
returned score is a finite integer in `[0, 100]` and each rounded factor
lies within its weight bound: credit in `[0, 40]`, repayment history in
`[0, 30]`, loan-to-income ratio in `[0, 30]`. -/
theorem C7_score_and_factor_bounds (customer : CustomerData) (loanPeriodMonths : ℚ)
    (r : RiskScore)
    (_hcs1 : 300 ≤ customer.creditScore) (_hcs2 : customer.creditScore ≤ 850)
    (hinc : 0 < customer.monthlyIncome) (hloan : 0 ≤ customer.outstandingLoans)
    (hp : 0 < loanPeriodMonths)
    (hok : calculateRiskScore customer loanPeriodMonths = .ok r) :
    (∃ s : ℤ, r.score = .num (s : ℚ) ∧ 0 ≤ s ∧ s ≤ 100) ∧
    (0 ≤ r.factors.creditScoreImpact ∧ r.factors.creditScoreImpact ≤ 40) ∧
    (0 ≤ r.factors.repaymentHistoryImpact ∧ r.factors.repaymentHistoryImpact ≤ 30) ∧
    (∃ l : ℤ, r.factors.loanToIncomeRatioImpact = .num (l : ℚ) ∧ 0 ≤ l ∧ l ≤ 30) := by
  have hpne : loanPeriodMonths ≠ 0 := ne_of_gt hp
  have hmne : customer.monthlyIncome ≠ 0 := ne_of_gt hinc
  have hr := riskScore_of_ok customer loanPeriodMonths r hok
  obtain ⟨hc0, hc1⟩ := creditScoreImpact_mem customer
  obtain ⟨hh0, hh1⟩ := repaymentHistoryImpact_mem customer
  obtain ⟨hl0, hl1⟩ := loanImpactQ_mem customer loanPeriodMonths hp hinc hloan
  have htotal0 : 0 ≤ totalQ customer loanPeriodMonths := by
    unfold totalQ
    linarith
  have htotal1 : totalQ customer loanPeriodMonths ≤ 100 := by
    unfold totalQ
    linarith
  refine ⟨?_, ?_, ?_, ?_⟩
  · refine ⟨jsRound (totalQ customer loanPeriodMonths), ?_, ?_, ?_⟩
    · rw [hr]
      show (totalScore customer loanPeriodMonths).round = _
      rw [totalScore_eq customer loanPeriodMonths hpne hmne, JsNum.round_num]
    · exact le_jsRound_of_le (by exact_mod_cast htotal0)
    · exact jsRound_le_of_le (by exact_mod_cast htotal1)
  · rw [hr]
    show 0 ≤ jsRound (creditScoreImpact customer) ∧ jsRound (creditScoreImpact customer) ≤ 40
    exact ⟨le_jsRound_of_le (by exact_mod_cast hc0), jsRound_le_of_le (by exact_mod_cast hc1)⟩
  · rw [hr]
    show 0 ≤ jsRound (repaymentHistoryImpact customer)
        ∧ jsRound (repaymentHistoryImpact customer) ≤ 30
    exact ⟨le_jsRound_of_le (by exact_mod_cast hh0), jsRound_le_of_le (by exact_mod_cast hh1)⟩
  · refine ⟨jsRound (loanImpactQ customer loanPeriodMonths), ?_, ?_, ?_⟩
    · rw [hr]
      show (loanToIncomeRatioImpact customer loanPeriodMonths).round = _
      rw [loanToIncomeRatioImpact_eq customer loanPeriodMonths hpne hmne, JsNum.round_num]
    · exact le_jsRound_of_le (by exact_mod_cast hl0)
    · exact jsRound_le_of_le (by exact_mod_cast hl1)

/-- C7 witness: the bounds instantiated at the concrete profile `custC7`. -/
theorem C7_score_and_factor_bounds_witness :
    0 ≤ riskC7.factors.creditScoreImpact ∧ riskC7.factors.creditScoreImpact ≤ 40 :=
  (C7_score_and_factor_bounds custC7 24 riskC7
    (by with_unfolding_all decide) (by with_unfolding_all decide)
    (by with_unfolding_all decide) (by with_unfolding_all decide)
    (by norm_num) (by with_unfolding_all rfl)).2.1

/-- C3 (amended): the level is the fixed step function of the unrounded
total, not of the returned rounded score.  In terms of the returned integer
score `s` this gives: `s ≤ 29 → Low`, `31 ≤ s ≤ 59 → Medium`,
`61 ≤ s → High`, while at the breakpoints the rounding slack remains:
`s = 30` may be `Low` or `Medium` and `s = 60` may be `Medium` or `High`. -/
theorem C3_level_step_function (customer : CustomerData) (loanPeriodMonths : ℚ)
    (r : RiskScore) (s : ℤ)
    (hinc : 0 < customer.monthlyIncome) (hp : 0 < loanPeriodMonths)
    (hok : calculateRiskScore customer loanPeriodMonths = .ok r)
    (hs : r.score = .num (s : ℚ)) :
    (s ≤ 29 → r.level = .Low) ∧
    (31 ≤ s → s ≤ 59 → r.level = .Medium) ∧
    (61 ≤ s → r.level = .High) ∧
    (s = 30 → r.level = .Low ∨ r.level = .Medium) ∧
    (s = 60 → r.level = .Medium ∨ r.level = .High) := by
  have hpne : loanPeriodMonths ≠ 0 := ne_of_gt hp
  have hmne : customer.monthlyIncome ≠ 0 := ne_of_gt hinc
  have hr := riskScore_of_ok customer loanPeriodMonths r hok
  have hscore : r.score = .num ((jsRound (totalQ customer loanPeriodMonths) : ℤ) : ℚ) := by
    rw [hr]
    show (totalScore customer loanPeriodMonths).round = _
    rw [totalScore_eq customer loanPeriodMonths hpne hmne, JsNum.round_num]
  have hsc : (s : ℚ) = ((jsRound (totalQ customer loanPeriodMonths) : ℤ) : ℚ) := by
    rw [hscore] at hs
    exact (JsNum.num.injEq _ _).mp hs.symm
  have hsT : s = jsRound (totalQ customer loanPeriodMonths) := by exact_mod_cast hsc
  have hlev : r.level =
      (if totalQ customer loanPeriodMonths < 30 then RiskLevel.Low
       else if totalQ customer loanPeriodMonths < 60 then RiskLevel.Medium
       else RiskLevel.High) := by
    rw [hr]
    show riskLevel customer loanPeriodMonths = _
    rw [riskLevel_eq customer loanPeriodMonths hpne hmne]
  obtain ⟨hb1, hb2⟩ := jsRound_spread (totalQ customer loanPeriodMonths)
  have hge : (s : ℚ) - 1/2 ≤ totalQ customer loanPeriodMonths := by
    rw [hsc]
    linarith
  have hlt : totalQ customer loanPeriodMonths < (s : ℚ) + 1/2 := by
    rw [hsc]
    linarith
  refine ⟨?_, ?_, ?_, ?_, ?_⟩
  · intro h29
    have hq : (s : ℚ) ≤ 29 := by exact_mod_cast h29
    rw [hlev, if_pos (by linarith)]
  · intro h31 h59
    have hq1 : (31 : ℚ) ≤ (s : ℚ) := by exact_mod_cast h31
    have hq2 : (s : ℚ) ≤ 59 := by exact_mod_cast h59
    rw [hlev, if_neg (by linarith), if_pos (by linarith)]
  · intro h61
    have hq : (61 : ℚ) ≤ (s : ℚ) := by exact_mod_cast h61
    rw [hlev, if_neg (by linarith), if_neg (by linarith)]
  · intro h30
    have hq : (s : ℚ) = 30 := by exact_mod_cast h30
    by_cases hT : totalQ customer loanPeriodMonths < 30
    · exact Or.inl (by rw [hlev, if_pos hT])
    · exact Or.inr (by rw [hlev, if_neg hT, if_pos (by linarith)])
  · intro h60
    have hq : (s : ℚ) = 60 := by exact_mod_cast h60
    by_cases hT : totalQ customer loanPeriodMonths < 60
    · exact Or.inl (by rw [hlev, if_neg (by linarith), if_pos hT])
    · exact Or.inr (by rw [hlev, if_neg (by linarith), if_neg hT])

/-- C3 witness: the specification's worked scenario scores 37 and is
classified `Medium`. -/
theorem C3_level_step_function_witness : riskC3w.level = RiskLevel.Medium :=
  (C3_level_step_function custC3w 24 riskC3w 37
    (by with_unfolding_all decide) (by norm_num)
    (by with_unfolding_all rfl) (by with_unfolding_all rfl)).2.1
    (by norm_num) (by norm_num)

/-- C3 counterexample: the claim states that a returned `RiskScore` with
`score = 30` always has level `Medium`; `custC3` has unrounded total `29.7`,
so the code returns `score = 30` together with level `Low`. -/
theorem C3_score_thirty_low :
    calculateRiskScore custC3 24 = .ok riskC3 ∧
    riskC3.score = .num 30 ∧ riskC3.level = RiskLevel.Low ∧
    RiskLevel.Low ≠ RiskLevel.Medium := by
  refine ⟨?_, ?_, ?_, ?_⟩
  · with_unfolding_all rfl
  · rfl
  · rfl
  · decide

/-- C9: holding credit score, income, repayment history and the loan period
fixed (income and period positive), increasing `outstandingLoans` never
decreases the returned `loanToIncomeRatioImpact` factor. -/
theorem C9_loan_factor_monotone (c1 c2 : CustomerData) (loanPeriodMonths : ℚ)
    (r1 r2 : RiskScore)
    (_hcs : c2.creditScore = c1.creditScore) (hm : c2.monthlyIncome = c1.monthlyIncome)
    (_hh : c2.loanRepaymentHistory = c1.loanRepaymentHistory)
    (hinc : 0 < c1.monthlyIncome) (hp : 0 < loanPeriodMonths)
    (hmono : c1.outstandingLoans ≤ c2.outstandingLoans)
    (hok1 : calculateRiskScore c1 loanPeriodMonths = .ok r1)
    (hok2 : calculateRiskScore c2 loanPeriodMonths = .ok r2) :
    JsNum.le r1.factors.loanToIncomeRatioImpact r2.factors.loanToIncomeRatioImpact := by
  have hpne : loanPeriodMonths ≠ 0 := ne_of_gt hp
  have hm1 : c1.monthlyIncome ≠ 0 := ne_of_gt hinc
  have hm2 : c2.monthlyIncome ≠ 0 := by
    rw [hm]
    exact hm1
  have hQ : loanImpactQ c1 loanPeriodMonths ≤ loanImpactQ c2 loanPeriodMonths := by
    unfold loanImpactQ LOAN_RATIO_WEIGHT
    rw [hm]
    gcongr
  have hr1 := riskScore_of_ok c1 loanPeriodMonths r1 hok1
  have hr2 := riskScore_of_ok c2 loanPeriodMonths r2 hok2
  rw [hr1, hr2]
  show JsNum.le ((loanToIncomeRatioImpact c1 loanPeriodMonths).round)
      ((loanToIncomeRatioImpact c2 loanPeriodMonths).round)
  rw [loanToIncomeRatioImpact_eq c1 loanPeriodMonths hpne hm1,
    loanToIncomeRatioImpact_eq c2 loanPeriodMonths hpne hm2,
    JsNum.round_num, JsNum.round_num]
  show ((jsRound (loanImpactQ c1 loanPeriodMonths) : ℤ) : ℚ)
      ≤ ((jsRound (loanImpactQ c2 loanPeriodMonths) : ℤ) : ℚ)
  exact_mod_cast jsRound_mono hQ

/-- C9 witness: `custC9a` and `custC9b` differ only in outstanding loans
(0 versus 6000); the loan factor rises from 0 to 15. -/
theorem C9_loan_factor_monotone_witness :
    JsNum.le riskC9a.factors.loanToIncomeRatioImpact riskC9b.factors.loanToIncomeRatioImpact :=
  C9_loan_factor_monotone custC9a custC9b 24 riskC9a riskC9b rfl rfl rfl
    (by with_unfolding_all decide) (by norm_num) (by with_unfolding_all decide)
    (by with_unfolding_all rfl) (by with_unfolding_all rfl)

/-- The handler's alert count, as a function of the update outcome and the
found score: one alert exactly when the update succeeded and the guard
`score > 70 && status === 'Approved'` holds. -/
theorem alertCount_handler (riskScores : List RiskScore) (customer : CustomerData)
    (newStatus : CustomerStatus) (updateResult : Except Unit Bool) (r : RiskScore)
    (hfind : riskScores.find? (fun s => s.customerId == customer.customerId) = some r) :
    alertCount (handleUpdateStatus riskScores (some customer) newStatus updateResult) =
      (match updateResult with
       | .ok true =>
          if JsNum.lt (.num 70) r.score && (newStatus == CustomerStatus.Approved) then 1 else 0
       | _ => 0) := by
  rcases updateResult with u | b
  · simp [handleUpdateStatus, alertCount]
  · rcases b
    · simp [handleUpdateStatus, alertCount]
    · simp only [handleUpdateStatus, hfind]
      rcases hcond : (JsNum.lt (.num 70) r.score && (newStatus == CustomerStatus.Approved))
      · simp [alertCount, hcond]
      · simp [alertCount, hcond]

/-- A score computed by `calculateRiskScore` whose level is `Low` or
`Medium` never exceeds the handler's threshold of 70: a finite total below
60 rounds to at most 60, and the only non-finite total classified below
`High` is `-Infinity`. -/
theorem score_le_seventy_of_level_low_medium (customer : CustomerData)
    (loanPeriodMonths : ℚ) (r : RiskScore)
    (hok : calculateRiskScore customer loanPeriodMonths = .ok r)
    (hlm : r.level = RiskLevel.Low ∨ r.level = RiskLevel.Medium) :
    JsNum.lt (.num 70) r.score = false := by
  have hr := riskScore_of_ok customer loanPeriodMonths r hok
  rw [hr]
  rw [hr] at hlm
  have hlm' : riskLevel customer loanPeriodMonths = RiskLevel.Low
      ∨ riskLevel customer loanPeriodMonths = RiskLevel.Medium := hlm
  show JsNum.lt (.num 70) (totalScore customer loanPeriodMonths).round = false
  unfold riskLevel at hlm'
  rcases htot : totalScore customer loanPeriodMonths with _ | _ | _ | t
  · rw [htot] at hlm'
    simp [JsNum.lt] at hlm'
  · rw [htot] at hlm'
    simp [JsNum.lt] at hlm'
  · rfl
  · rw [htot] at hlm'
    by_cases ht60 : t < RISK_THRESHOLDS_MEDIUM
    · show JsNum.lt (.num 70) (.num ((jsRound t : ℤ) : ℚ)) = false
      rw [JsNum.lt_num_num]
      have hle : jsRound t ≤ 60 := by
        apply jsRound_le_of_le
        have : t ≤ 60 := by
          have h60 : RISK_THRESHOLDS_MEDIUM = (60 : ℚ) := rfl
          rw [h60] at ht60
          linarith
        exact_mod_cast this
      have : ¬((70 : ℚ) < ((jsRound t : ℤ) : ℚ)) := by
        have : ((jsRound t : ℤ) : ℚ) ≤ 60 := by exact_mod_cast hle
        linarith
      simp [this]
    · have ht30 : ¬(t < RISK_THRESHOLDS_LOW) := by
        have h30 : RISK_THRESHOLDS_LOW = (30 : ℚ) := rfl
        have h60 : RISK_THRESHOLDS_MEDIUM = (60 : ℚ) := rfl
        rw [h60] at ht60
        rw [h30]
        linarith [not_lt.mp ht60]
      simp [JsNum.lt, ht30, ht60] at hlm'

/-- C1 (amended): the status-update handler emits exactly one high-risk
alert when the awaited update succeeded, the requested status is `Approved`,
and the customer's computed score is strictly greater than 70; in every
other situation it emits zero alerts.  In particular approving a `Low` or
`Medium` customer emits zero alerts — but so does approving a `High`-level
customer whose score is at most 70, because the handler's guard is
`score > 70`, not `level === 'High'`. -/
theorem C1_alert_exactly_above_seventy (riskScores : List RiskScore)
    (customer : CustomerData) (loanPeriodMonths : ℚ) (r : RiskScore)
    (newStatus : CustomerStatus) (updateResult : Except Unit Bool)
    (hok : calculateRiskScore customer loanPeriodMonths = .ok r)
    (hfind : riskScores.find? (fun s => s.customerId == customer.customerId) = some r) :
    (updateResult = .ok true → newStatus = .Approved → JsNum.lt (.num 70) r.score = true →
      alertCount (handleUpdateStatus riskScores (some customer) newStatus updateResult) = 1) ∧
    (JsNum.lt (.num 70) r.score = false →
      alertCount (handleUpdateStatus riskScores (some customer) newStatus updateResult) = 0) ∧
    (newStatus ≠ .Approved →
      alertCount (handleUpdateStatus riskScores (some customer) newStatus updateResult) = 0) ∧
    (updateResult ≠ .ok true →
      alertCount (handleUpdateStatus riskScores (some customer) newStatus updateResult) = 0) ∧
    ((r.level = RiskLevel.Low ∨ r.level = RiskLevel.Medium) →
      alertCount (handleUpdateStatus riskScores (some customer) newStatus updateResult) = 0) := by
  have hcount := alertCount_handler riskScores customer newStatus updateResult r hfind
  have hzero_of_false : JsNum.lt (.num 70) r.score = false →
      alertCount (handleUpdateStatus riskScores (some customer) newStatus updateResult) = 0 := by
    intro hfalse
    rw [hcount]
    rcases updateResult with u | b
    · rfl
    · rcases b
      · rfl
      · simp [hfalse]
  refine ⟨?_, hzero_of_false, ?_, ?_, ?_⟩
  · intro hres hst hlt
    subst hres
    subst hst
    rw [hcount]
    simp [hlt]
  · intro hne
    rw [hcount]
    have hb : (newStatus == CustomerStatus.Approved) = false := by
      simp [hne]
    rcases updateResult with u | b
    · rfl
    · rcases b
      · rfl
      · simp [hb]
  · intro hneres
    rw [hcount]
    rcases updateResult with u | b
    · rfl
    · rcases b
      · rfl
      · exact absurd rfl hneres
  · intro hlm
    exact hzero_of_false
      (score_le_seventy_of_level_low_medium customer loanPeriodMonths r hok hlm)

/-- C1 witness: `custC1w` has score 85; a successful approval emits exactly
one high-risk alert. -/
theorem C1_alert_exactly_above_seventy_witness :
    alertCount (handleUpdateStatus [riskC1w] (some custC1w) .Approved (.ok true)) = 1 :=
  (C1_alert_exactly_above_seventy [riskC1w] custC1w 24 riskC1w .Approved (.ok true)
    (by with_unfolding_all rfl) (by with_unfolding_all rfl)).1 rfl rfl
    (by with_unfolding_all rfl)

/-- C1 counterexample: the claim says approving a customer whose computed
level is `High` always emits exactly one alert.  `custC1` is computed
`High` (score 65), its approval succeeds and the handler completes with the
success notification, yet zero alerts are emitted, because `65 ≤ 70`. -/
theorem C1_high_level_approved_without_alert :
    calculateRiskScore custC1 24 = .ok riskC1 ∧
    riskC1.level = RiskLevel.High ∧
    handleUpdateStatus [riskC1] (some custC1) .Approved (.ok true)
      = [.successNotification "C1"] ∧
    alertCount (handleUpdateStatus [riskC1] (some custC1) .Approved (.ok true)) = 0 := by
  refine ⟨?_, rfl, ?_, ?_⟩
  · with_unfolding_all rfl
  · with_unfolding_all rfl
  · with_unfolding_all rfl

/-- C4 (amended, surviving part): when the batch succeeds it returns one
score per profile, in the same order, each equal to the single-profile score
at the default 24-month period. -/
theorem C4_batch_order_preserving (profiles : List CustomerData) (rs : List RiskScore)
    (hok : calculateAllRiskScores profiles = .ok rs) :
    rs.length = profiles.length ∧
    ∀ i : ℕ, (h1 : i < profiles.length) → (h2 : i < rs.length) →
      calculateRiskScore profiles[i] DEFAULT_LOAN_PERIOD_MONTHS = .ok rs[i] := by
  induction profiles generalizing rs with
  | nil =>
    unfold calculateAllRiskScores at hok
    simp only [Except.ok.injEq] at hok
    subst hok
    exact ⟨rfl, fun i h1 _ => absurd h1 (by simp)⟩
  | cons customer rest ih =>
    unfold calculateAllRiskScores at hok
    rcases hc : calculateRiskScore customer DEFAULT_LOAN_PERIOD_MONTHS with e | r
    · rw [hc] at hok
      exact absurd hok (by simp)
    · rw [hc] at hok
      rcases hrest : calculateAllRiskScores rest with e | rs'
      · rw [hrest] at hok
        exact absurd hok (by simp)
      · rw [hrest] at hok
        simp only [Except.ok.injEq] at hok
        subst hok
        obtain ⟨hlen, hidx⟩ := ih rs' hrest
        refine ⟨by simp [hlen], ?_⟩
        intro i h1 h2
        cases i with
        | zero => simpa using hc
        | succ j =>
          have hj1 : j < rest.length := by simpa using h1
          have hj2 : j < rs'.length := by simpa using h2
          simpa using hidx j hj1 hj2

/-- C4 witness: a concrete all-valid batch of two profiles. -/
theorem C4_batch_order_preserving_witness :
    calculateRiskScore custC4a DEFAULT_LOAN_PERIOD_MONTHS = .ok riskC4a := by
  have h := C4_batch_order_preserving [custC4a, custC4b] [riskC4a, riskC4b]
    (by with_unfolding_all rfl)
  simpa using h.2 0 (by norm_num) (by norm_num)

/-- C4 counterexample: the claim says a failure scoring one profile does not
prevent the other profiles from being scored.  In the batch
`[custC4a, custC4bad, custC4c]` the middle profile throws, the whole batch
returns that error and no list of scores at all, although `custC4c` scores
fine on its own. -/
theorem C4_batch_aborts_on_failure :
    calculateAllRiskScores [custC4a, custC4bad, custC4c]
      = .error "Credit score must be between 300 and 850" ∧
    calculateRiskScore custC4c DEFAULT_LOAN_PERIOD_MONTHS = .ok riskC4c := by
  constructor
  · with_unfolding_all rfl
  · with_unfolding_all rfl

end ClientRisk
